import Mathlib

/-!
Shallow embedding of the word-spelling core of `src/asl_webcam.py`
(class `ASLDetectorApp`).

Modelling conventions:
* Timestamps (`time.time()` readings) are integers (`Int`); the real clock
  is strictly positive, so theorems about the hold timer assume `0 < t`
  where the Python truthiness test `self.letter_hold_start and …` matters.
* Detector confidence scores are rationals (`ℚ`); the YOLO confidence
  filter (`self.model(frame, conf=self.CONF_TH)`) happens inside the
  external detector, so a sub-threshold or absent detection is modelled as
  a frame whose detection list omits it.
* `HOLD_TIME` (1.0 s in the source, fixed at configuration time) is a
  parameter so that claims quantifying over the hold duration can be
  stated.
* The GUI (`self.gui.update_…`) is reduced to the observable `status`
  string and the word / history displays, which mirror the fields below.
* The durable log `words/spelled_words.txt` is the list of strings written
  to it, one `f.write` call per element.
-/

/-- The mutable state of `ASLDetectorApp` that the word-spelling logic
touches: `current_word`, `last_detected_letter`, `letter_hold_start`,
`word_history`, the contents of `words/spelled_words.txt`, and the GUI
status line. -/
structure AppState where
  current_word : String
  last_detected_letter : Option String
  letter_hold_start : Option Int
  word_history : List String
  logLines : List String
  status : String
deriving DecidableEq

/-- The state right after `__init__`: empty word, no candidate, no hold
timer, empty history (the log file is taken as empty), status "Ready". -/
def initState : AppState :=
  { current_word := ""
    last_detected_letter := none
    letter_hold_start := none
    word_history := []
    logLines := []
    status := "Ready" }

/-- `ASLDetectorApp.handle_letter_detection(letter, score)`.  `current_time`
is the `time.time()` reading of this call.  The Python guard
`self.letter_hold_start and (current_time - self.letter_hold_start) >= self.HOLD_TIME`
short-circuits: `None` is falsy, and a float equal to `0.0` is also falsy,
hence the `start ≠ 0` conjunct.  The `score` argument is never used by the
body. -/
def handle_letter_detection (HOLD_TIME : Int) (st : AppState) (letter : String)
    (score : ℚ) (current_time : Int) : AppState :=
  if some letter ≠ st.last_detected_letter then
    { st with
      last_detected_letter := some letter
      letter_hold_start := some current_time
      status := "Detected " ++ letter ++ " - Hold to add to word" }
  else
    match st.letter_hold_start with
    | none => st
    | some start =>
      if start ≠ 0 ∧ current_time - start ≥ HOLD_TIME then
        { st with
          current_word := st.current_word ++ letter
          status := "Added " ++ letter ++ " to word: " ++ (st.current_word ++ letter)
          letter_hold_start := none }
      else st

/-- `ASLDetectorApp.clear_word`. -/
def clear_word (st : AppState) : AppState :=
  { st with
    current_word := ""
    last_detected_letter := none
    letter_hold_start := none
    status := "Word cleared" }

/-- `ASLDetectorApp.backspace_word`.  Python `self.current_word[:-1]` keeps
every character but the last, i.e. `String.mk` of `dropLast` of the
character list. -/
def backspace_word (st : AppState) : AppState :=
  if st.current_word ≠ "" then
    { st with
      current_word := String.mk st.current_word.data.dropLast
      status := "Removed last letter" }
  else
    { st with status := "No letter to remove" }

/-- `ASLDetectorApp.clear_history`: empties the in-memory list and truncates
the file (`open(..., "w").close()`). -/
def clear_history (st : AppState) : AppState :=
  { st with
    word_history := []
    logLines := []
    status := "Word history cleared" }

/-- `ASLDetectorApp.add_space`. -/
def add_space (st : AppState) : AppState :=
  { st with
    current_word := st.current_word ++ " "
    status := "Added space" }

/-- `ASLDetectorApp.submit_word`.  `timestamp` is the formatted
`datetime.now()` reading; `logOk` is whether the `open`/`write` on
`words/spelled_words.txt` succeeds.  The source order is: append to
`word_history`, write the log line, update the GUI, then `clear_word()`
(whose status update is the last one, so a successful submit ends with
status "Word cleared").  If the write raises, the exception propagates
after the history append has already happened, so the failure result keeps
the appended history entry and everything else unchanged. -/
def submit_word (timestamp : String) (logOk : Bool) (st : AppState) : AppState :=
  if st.current_word ≠ "" then
    let st1 := { st with word_history := st.word_history ++ [st.current_word] }
    if logOk then
      clear_word
        { st1 with
          logLines := st1.logLines ++ [timestamp ++ ": " ++ st1.current_word ++ "\n"]
          status := "Submitted word: " ++ st1.current_word }
    else st1
  else
    { st with status := "No word to submit" }

/-- The detection loop of `ASLDetectorApp.update_frame`: for every box of
`results.boxes` (the external detector's output for this frame, already
filtered at `conf=self.CONF_TH`), draw it and call
`handle_letter_detection(letter, score)`.  Camera read, drawing, GUI
update and rescheduling are I/O of the excluded layers; only the handler
calls touch the embedded state.  `now` is the tick's clock reading. -/
def update_frame_boxes (HOLD_TIME : Int) (st : AppState)
    (boxes : List (String × ℚ)) (now : Int) : AppState :=
  boxes.foldl (fun s b => handle_letter_detection HOLD_TIME s b.1 b.2 now) st

/-- Run a sequence of single-detection ticks `(now, letter, score)` through
`handle_letter_detection`, in order. -/
def run_detections (HOLD_TIME : Int) (st : AppState)
    (ticks : List (Int × String × ℚ)) : AppState :=
  ticks.foldl (fun s t => handle_letter_detection HOLD_TIME s t.2.1 t.2.2 t.1) st

/-- Run a sequence of frames `(now, boxes)` through the `update_frame`
detection loop, in order.  A frame with an empty box list is a tick on
which no detection qualified. -/
def run_frames (HOLD_TIME : Int) (st : AppState)
    (frames : List (Int × List (String × ℚ))) : AppState :=
  frames.foldl (fun s f => update_frame_boxes HOLD_TIME s f.2 f.1) st

/-- `all_change last ticks` holds when every tick's letter differs from the
previous tick's letter, the first tick differing from the stored candidate
`last`. -/
def all_change (last : Option String) : List (Int × String × ℚ) → Bool
  | [] => true
  | t :: rest => (some t.2.1 != last) && all_change (some t.2.1) rest

/-! Basic unfolding lemmas for the runners. -/

theorem run_detections_nil (h : Int) (st : AppState) :
    run_detections h st [] = st := rfl

theorem run_detections_cons (h : Int) (st : AppState) (t : Int × String × ℚ)
    (ts : List (Int × String × ℚ)) :
    run_detections h st (t :: ts) =
      run_detections h (handle_letter_detection h st t.2.1 t.2.2 t.1) ts := rfl

theorem run_detections_append (h : Int) (st : AppState)
    (l₁ l₂ : List (Int × String × ℚ)) :
    run_detections h st (l₁ ++ l₂) = run_detections h (run_detections h st l₁) l₂ := by
  simp [run_detections]

theorem update_frame_boxes_nil (h : Int) (st : AppState) (now : Int) :
    update_frame_boxes h st [] now = st := rfl

theorem update_frame_boxes_cons (h : Int) (st : AppState) (b : String × ℚ)
    (bs : List (String × ℚ)) (now : Int) :
    update_frame_boxes h st (b :: bs) now =
      update_frame_boxes h (handle_letter_detection h st b.1 b.2 now) bs now := rfl

theorem run_frames_nil (h : Int) (st : AppState) :
    run_frames h st [] = st := rfl

theorem run_frames_cons (h : Int) (st : AppState) (f : Int × List (String × ℚ))
    (fs : List (Int × List (String × ℚ))) :
    run_frames h st (f :: fs) =
      run_frames h (update_frame_boxes h st f.2 f.1) fs := rfl

theorem run_frames_append (h : Int) (st : AppState)
    (l₁ l₂ : List (Int × List (String × ℚ))) :
    run_frames h st (l₁ ++ l₂) = run_frames h (run_frames h st l₁) l₂ := by
  simp [run_frames]

/-! Branch lemmas for `handle_letter_detection`. -/

/-- A letter different from the stored candidate starts a fresh hold
episode: candidate and timer are overwritten, nothing is appended. -/
theorem handle_new (h : Int) (st : AppState) (letter : String) (c : ℚ) (now : Int)
    (hne : some letter ≠ st.last_detected_letter) :
    handle_letter_detection h st letter c now =
      { st with
        last_detected_letter := some letter
        letter_hold_start := some now
        status := "Detected " ++ letter ++ " - Hold to add to word" } := by
  rw [handle_letter_detection, if_pos hne]

/-- Re-seeing the stored candidate after its hold episode already
confirmed (timer cleared) changes nothing. -/
theorem handle_same_none (h : Int) (st : AppState) (letter : String) (c : ℚ) (now : Int)
    (hlast : st.last_detected_letter = some letter)
    (hstart : st.letter_hold_start = none) :
    handle_letter_detection h st letter c now = st := by
  rw [handle_letter_detection, if_neg (by simp [hlast]), hstart]

/-- Re-seeing the stored candidate before the hold duration has elapsed
changes nothing. -/
theorem handle_same_early (h : Int) (st : AppState) (letter : String) (c : ℚ)
    (now start : Int)
    (hlast : st.last_detected_letter = some letter)
    (hstart : st.letter_hold_start = some start)
    (hlt : now - start < h) :
    handle_letter_detection h st letter c now = st := by
  rw [handle_letter_detection, if_neg (by simp [hlast]), hstart]
  exact if_neg (by rintro ⟨-, hge⟩; omega)

/-- Re-seeing the stored candidate once the hold duration has elapsed
appends it to the word and clears the timer. -/
theorem handle_same_confirm (h : Int) (st : AppState) (letter : String) (c : ℚ)
    (now start : Int)
    (hlast : st.last_detected_letter = some letter)
    (hstart : st.letter_hold_start = some start)
    (h0 : start ≠ 0)
    (hge : now - start ≥ h) :
    handle_letter_detection h st letter c now =
      { st with
        current_word := st.current_word ++ letter
        status := "Added " ++ letter ++ " to word: " ++ (st.current_word ++ letter)
        letter_hold_start := none } := by
  rw [handle_letter_detection, if_neg (by simp [hlast]), hstart]
  exact if_pos ⟨h0, hge⟩

/-- After any call of the handler on `letter`, the stored candidate is
`letter`. -/
theorem handle_last (h : Int) (st : AppState) (letter : String) (c : ℚ) (now : Int) :
    (handle_letter_detection h st letter c now).last_detected_letter = some letter := by
  by_cases hne : some letter ≠ st.last_detected_letter
  · rw [handle_new h st letter c now hne]
  · push_neg at hne
    rw [handle_letter_detection, if_neg (by simp [hne])]
    split
    · exact hne.symm
    · split <;> exact hne.symm

/-! Hold-episode lemmas. -/

/-- While the stored candidate is `s` with its timer at `t0`, ticks
carrying `s` strictly before the hold deadline leave the state untouched. -/
theorem run_hold_steady (h : Int) (s : String) (t0 : Int) :
    ∀ (pre : List (Int × String × ℚ)) (st : AppState),
      st.last_detected_letter = some s →
      st.letter_hold_start = some t0 →
      (∀ p ∈ pre, p.2.1 = s ∧ p.1 < t0 + h) →
      run_detections h st pre = st := by
  intro pre
  induction pre with
  | nil => intro st _ _ _; rfl
  | cons p rest ih =>
    intro st hlast hstart hp
    obtain ⟨hps, hpt⟩ := hp p (List.mem_cons_self p rest)
    rw [run_detections_cons, hps,
      handle_same_early h st s p.2.2 p.1 t0 hlast hstart (by omega)]
    exact ih st hlast hstart fun q hq => hp q (List.mem_cons_of_mem p hq)

/-- Once the stored candidate `s` has confirmed (timer cleared), further
ticks carrying `s` leave the state untouched. -/
theorem run_confirmed_stuck (h : Int) (s : String) :
    ∀ (ticks : List (Int × String × ℚ)) (st : AppState),
      st.last_detected_letter = some s →
      st.letter_hold_start = none →
      (∀ p ∈ ticks, p.2.1 = s) →
      run_detections h st ticks = st := by
  intro ticks
  induction ticks with
  | nil => intro st _ _ _; rfl
  | cons p rest ih =>
    intro st hlast hstart hp
    rw [run_detections_cons, hp p (List.mem_cons_self p rest),
      handle_same_none h st s p.2.2 p.1 hlast hstart]
    exact ih st hlast hstart fun q hq => hp q (List.mem_cons_of_mem p hq)

/-- Frame-level version of `run_hold_steady`: a frame whose boxes all carry
`s` (possibly no boxes at all), ticked strictly before the hold deadline,
leaves the state untouched. -/
theorem frame_hold_steady (h : Int) (s : String) (t0 : Int) :
    ∀ (boxes : List (String × ℚ)) (st : AppState) (now : Int),
      st.last_detected_letter = some s →
      st.letter_hold_start = some t0 →
      (∀ b ∈ boxes, b.1 = s) →
      now < t0 + h →
      update_frame_boxes h st boxes now = st := by
  intro boxes
  induction boxes with
  | nil => intro st now _ _ _ _; rfl
  | cons b rest ih =>
    intro st now hlast hstart hb hnow
    rw [update_frame_boxes_cons, hb b (List.mem_cons_self b rest),
      handle_same_early h st s b.2 now t0 hlast hstart (by omega)]
    exact ih st now hlast hstart (fun q hq => hb q (List.mem_cons_of_mem b hq)) hnow

/-- Frame-level version of `run_confirmed_stuck`: once `s` has confirmed,
a frame whose boxes all carry `s` (possibly none) leaves the state
untouched. -/
theorem frame_confirmed_stuck (h : Int) (s : String) :
    ∀ (boxes : List (String × ℚ)) (st : AppState) (now : Int),
      st.last_detected_letter = some s →
      st.letter_hold_start = none →
      (∀ b ∈ boxes, b.1 = s) →
      update_frame_boxes h st boxes now = st := by
  intro boxes
  induction boxes with
  | nil => intro st now _ _ _; rfl
  | cons b rest ih =>
    intro st now hlast hstart hb
    rw [update_frame_boxes_cons, hb b (List.mem_cons_self b rest),
      handle_same_none h st s b.2 now hlast hstart]
    exact ih st now hlast hstart fun q hq => hb q (List.mem_cons_of_mem b hq)

/-- Run of `frame_hold_steady` over a list of frames. -/
theorem frames_hold_steady (h : Int) (s : String) (t0 : Int) :
    ∀ (mid : List (Int × List (String × ℚ))) (st : AppState),
      st.last_detected_letter = some s →
      st.letter_hold_start = some t0 →
      (∀ f ∈ mid, (∀ b ∈ f.2, b.1 = s) ∧ f.1 < t0 + h) →
      run_frames h st mid = st := by
  intro mid
  induction mid with
  | nil => intro st _ _ _; rfl
  | cons f rest ih =>
    intro st hlast hstart hf
    obtain ⟨hfb, hft⟩ := hf f (List.mem_cons_self f rest)
    rw [run_frames_cons, frame_hold_steady h s t0 f.2 st f.1 hlast hstart hfb hft]
    exact ih st hlast hstart fun q hq => hf q (List.mem_cons_of_mem f hq)

/-- Run of `frame_confirmed_stuck` over a list of frames. -/
theorem frames_confirmed_stuck (h : Int) (s : String) :
    ∀ (frames : List (Int × List (String × ℚ))) (st : AppState),
      st.last_detected_letter = some s →
      st.letter_hold_start = none →
      (∀ f ∈ frames, ∀ b ∈ f.2, b.1 = s) →
      run_frames h st frames = st := by
  intro frames
  induction frames with
  | nil => intro st _ _ _; rfl
  | cons f rest ih =>
    intro st hlast hstart hf
    rw [run_frames_cons,
      frame_confirmed_stuck h s f.2 st f.1 hlast hstart (hf f (List.mem_cons_self f rest))]
    exact ih st hlast hstart fun q hq => hf q (List.mem_cons_of_mem f hq)

/-! Claim theorems. -/

/-- Claim C2: starting from a state whose stored candidate differs from
`s`, a run of qualifying ticks carrying `s` that reaches the hold deadline
appends `s` exactly once: nothing is appended on the ticks strictly before
the deadline, `s` is appended at the first tick whose elapsed time since
`s` first appeared is at least `HOLD_TIME`, and no further tick of the
episode appends anything. -/
theorem C2_constant_hold_confirms_once (h t0 tkt : Int) (c0 tkc : ℚ)
    (st : AppState) (s : String) (pre post : List (Int × String × ℚ))
    (hlast : st.last_detected_letter ≠ some s)
    (ht0 : 0 < t0)
    (hpre : ∀ p ∈ pre, p.2.1 = s ∧ p.1 < t0 + h)
    (htk : t0 + h ≤ tkt)
    (hpost : ∀ p ∈ post, p.2.1 = s) :
    (run_detections h st ((t0, s, c0) :: pre)).current_word = st.current_word ∧
    (run_detections h st (((t0, s, c0) :: pre) ++ [(tkt, s, tkc)])).current_word
      = st.current_word ++ s ∧
    (run_detections h st (((t0, s, c0) :: pre) ++ (tkt, s, tkc) :: post)).current_word
      = st.current_word ++ s := by
  have hne : some s ≠ st.last_detected_letter := Ne.symm hlast
  have hst1 := handle_new h st s c0 t0 hne
  have hrun1 : run_detections h st ((t0, s, c0) :: pre)
      = handle_letter_detection h st s c0 t0 := by
    rw [run_detections_cons]
    exact run_hold_steady h s t0 pre _ (by rw [hst1]) (by rw [hst1]) hpre
  have hconf : handle_letter_detection h (handle_letter_detection h st s c0 t0) s tkc tkt
      = { handle_letter_detection h st s c0 t0 with
          current_word := st.current_word ++ s
          status := "Added " ++ s ++ " to word: " ++ (st.current_word ++ s)
          letter_hold_start := none } := by
    rw [handle_same_confirm h _ s tkc tkt t0 (by rw [hst1]) (by rw [hst1])
      (by omega) (by omega)]
    rw [hst1]
  refine ⟨by rw [hrun1, hst1], ?_, ?_⟩
  · rw [run_detections_append, hrun1, run_detections_cons, run_detections_nil, hconf]
  · rw [run_detections_append, hrun1, run_detections_cons, hconf,
      run_confirmed_stuck h s post _ (by rw [hst1]) rfl hpost]

/-- Witness for C2 at a concrete run: hold duration 2, ticks carrying "A"
at times 1, 2, 3, 4 from the initial state; the append happens at time 3. -/
theorem C2_witness :
    (run_detections 2 initState ((1, "A", 1) :: [(2, "A", 1)])).current_word
      = initState.current_word ∧
    (run_detections 2 initState (((1, "A", 1) :: [(2, "A", 1)]) ++ [(3, "A", 1)])).current_word
      = initState.current_word ++ "A" ∧
    (run_detections 2 initState
        (((1, "A", 1) :: [(2, "A", 1)]) ++ (3, "A", 1) :: [(4, "A", 1)])).current_word
      = initState.current_word ++ "A" :=
  C2_constant_hold_confirms_once 2 1 3 1 1 initState "A" [(2, "A", 1)] [(4, "A", 1)]
    (by decide) (by decide) (by decide) (by decide) (by decide)

/-- Claim C7: with `HOLD_TIME = 0`, the first tick of a new candidate only
starts the hold episode (nothing appended); the second consecutive tick of
the same candidate appends it. -/
theorem C7_zero_hold_confirms_on_second_tick (st : AppState) (letter : String)
    (c1 c2 : ℚ) (t1 t2 : Int)
    (hlast : st.last_detected_letter ≠ some letter)
    (ht1 : 0 < t1)
    (hmono : t1 ≤ t2) :
    (handle_letter_detection 0 st letter c1 t1).current_word = st.current_word ∧
    (handle_letter_detection 0 (handle_letter_detection 0 st letter c1 t1)
        letter c2 t2).current_word
      = st.current_word ++ letter := by
  have hst1 := handle_new 0 st letter c1 t1 (Ne.symm hlast)
  constructor
  · rw [hst1]
  · rw [handle_same_confirm 0 _ letter c2 t2 t1 (by rw [hst1]) (by rw [hst1])
      (by omega) (by omega), hst1]

/-- Witness for C7: two ticks of "B" at times 5 and 5 with hold duration 0
append "B" on the second tick only. -/
theorem C7_witness :
    (handle_letter_detection 0 initState "B" 1 5).current_word = initState.current_word ∧
    (handle_letter_detection 0 (handle_letter_detection 0 initState "B" 1 5)
        "B" 1 5).current_word
      = initState.current_word ++ "B" :=
  C7_zero_hold_confirms_on_second_tick initState "B" 1 1 5 5
    (by decide) (by decide) (by decide)

/-- Claim C8: a run of ticks in which every tick's letter differs from the
previous one (the first differing from the stored candidate) never appends
anything to the word. -/
theorem C8_alternating_letters_yield_no_events (h : Int) (st : AppState)
    (ticks : List (Int × String × ℚ))
    (hch : all_change st.last_detected_letter ticks = true) :
    (run_detections h st ticks).current_word = st.current_word := by
  revert st
  induction ticks with
  | nil => intro st _; rfl
  | cons t rest ih =>
    intro st hch
    simp only [all_change, Bool.and_eq_true, bne_iff_ne] at hch
    obtain ⟨hne, hrest⟩ := hch
    rw [run_detections_cons, handle_new h st t.2.1 t.2.2 t.1 hne]
    exact ih _ hrest

/-- Witness for C8: letters A, B, A on consecutive ticks leave the word
empty even with hold duration 0. -/
theorem C8_witness :
    (run_detections 0 initState [(1, "A", 1), (2, "B", 1), (3, "A", 1)]).current_word
      = initState.current_word :=
  C8_alternating_letters_yield_no_events 0 initState
    [(1, "A", 1), (2, "B", 1), (3, "A", 1)] (by decide)

/-- Claim C10: `handle_letter_detection` never reads its `score` argument:
two calls differing only in the score give identical successor states
(same buffer, same debounce state, same status). -/
theorem C10_handler_ignores_score (h : Int) (st : AppState) (letter : String)
    (c1 c2 : ℚ) (now : Int) :
    handle_letter_detection h st letter c1 now
      = handle_letter_detection h st letter c2 now := rfl

/-- Claim C9: a frame with no qualifying detection runs the handler zero
times and leaves the state untouched; consequently, once a letter `L` has
confirmed (candidate `L` stored, timer cleared), any further frames whose
detections all carry `L` — including empty frames, however long the gap —
leave the whole state unchanged, so `L` is never appended again. -/
theorem C9_confirmed_letter_never_reconfirms (h : Int) (L : String)
    (st st2 : AppState) (now : Int)
    (frames : List (Int × List (String × ℚ)))
    (hlast : st.last_detected_letter = some L)
    (hstart : st.letter_hold_start = none)
    (hboxes : ∀ f ∈ frames, ∀ b ∈ f.2, b.1 = L) :
    update_frame_boxes h st2 [] now = st2 ∧ run_frames h st frames = st :=
  ⟨rfl, frames_confirmed_stuck h L frames st hlast hstart hboxes⟩

/-- Witness for C9: after "A" confirmed, an empty frame and repeated "A"
frames (even multiple boxes per frame, much later) change nothing. -/
theorem C9_witness :
    update_frame_boxes 1 initState [] 7 = initState ∧
    run_frames 1
        { current_word := "XA", last_detected_letter := some "A", letter_hold_start := none,
          word_history := [], logLines := [], status := "S" }
        [(10, []), (11, [("A", 1)]), (99, [("A", 1), ("A", 1)])]
      = { current_word := "XA", last_detected_letter := some "A", letter_hold_start := none,
          word_history := [], logLines := [], status := "S" } :=
  C9_confirmed_letter_never_reconfirms 1 "A"
    { current_word := "XA", last_detected_letter := some "A", letter_hold_start := none,
      word_history := [], logLines := [], status := "S" }
    initState 7 [(10, []), (11, [("A", 1)]), (99, [("A", 1), ("A", 1)])]
    rfl rfl (by decide)

/-- Claim C1, counterexample: with hold duration 4, holding "A" at times 1
and 2, a tick with no qualifying detection at time 3 does NOT reset the
debounce state (candidate still "A", timer still started at 1), and
resuming "A" at times 4 and 5 already appends at time 5 (elapsed 4 from
the FIRST hold's start), not a full hold duration after the second hold's
start as the claim requires. -/
theorem C1_counterexample :
    (run_frames 4 initState [(1, [("A", 1)]), (2, [("A", 1)]), (3, [])]).last_detected_letter
      = some "A" ∧
    (run_frames 4 initState [(1, [("A", 1)]), (2, [("A", 1)]), (3, [])]).letter_hold_start
      = some 1 ∧
    (run_frames 4 initState
        [(1, [("A", 1)]), (2, [("A", 1)]), (3, []), (4, [("A", 1)]), (5, [("A", 1)])]).current_word
      = "A" := by decide

/-- Claim C1 as amended: a tick whose sample does not qualify (symbol
"none" or sub-threshold confidence) reaches the handler as a frame with no
detection, so it leaves the debounce state unchanged and emits no event —
it does not reset the hold.  Consequently, holding `s`, inserting
sub-threshold ticks, and holding `s` again yields exactly one append,
emitted at the first `s`-tick whose elapsed time since the start of the
FIRST hold reaches `HOLD_TIME`. -/
theorem C1_amended_gap_does_not_reset (h t0 tkt : Int) (c0 tkc : ℚ)
    (st : AppState) (s : String)
    (mid : List (Int × List (String × ℚ))) (tkboxes : List (String × ℚ))
    (post : List (Int × List (String × ℚ)))
    (hlast : st.last_detected_letter ≠ some s)
    (ht0 : 0 < t0)
    (hmid : ∀ f ∈ mid, (∀ b ∈ f.2, b.1 = s) ∧ f.1 < t0 + h)
    (htk : t0 + h ≤ tkt)
    (htkb : ∀ b ∈ tkboxes, b.1 = s)
    (hpost : ∀ f ∈ post, ∀ b ∈ f.2, b.1 = s) :
    (run_frames h st ((t0, [(s, c0)]) :: mid)).current_word = st.current_word ∧
    (run_frames h st (((t0, [(s, c0)]) :: mid) ++ [(tkt, (s, tkc) :: tkboxes)])).current_word
      = st.current_word ++ s ∧
    (run_frames h st (((t0, [(s, c0)]) :: mid)
        ++ (tkt, (s, tkc) :: tkboxes) :: post)).current_word
      = st.current_word ++ s := by
  have hne : some s ≠ st.last_detected_letter := Ne.symm hlast
  have hst1 := handle_new h st s c0 t0 hne
  have hframe0 : update_frame_boxes h st [(s, c0)] t0
      = handle_letter_detection h st s c0 t0 := rfl
  have hrun1 : run_frames h st ((t0, [(s, c0)]) :: mid)
      = handle_letter_detection h st s c0 t0 := by
    rw [run_frames_cons]
    exact frames_hold_steady h s t0 mid (handle_letter_detection h st s c0 t0)
      (by rw [hst1]) (by rw [hst1]) hmid
  have hconf : update_frame_boxes h (handle_letter_detection h st s c0 t0)
      ((s, tkc) :: tkboxes) tkt
      = { handle_letter_detection h st s c0 t0 with
          current_word := st.current_word ++ s
          status := "Added " ++ s ++ " to word: " ++ (st.current_word ++ s)
          letter_hold_start := none } := by
    rw [update_frame_boxes_cons,
      handle_same_confirm h _ s tkc tkt t0 (by rw [hst1]) (by rw [hst1]) (by omega) (by omega)]
    rw [hst1]
    exact frame_confirmed_stuck h s tkboxes _ tkt rfl rfl htkb
  refine ⟨by rw [hrun1, hst1], ?_, ?_⟩
  · rw [run_frames_append, hrun1, run_frames_cons, run_frames_nil, hconf]
  · rw [run_frames_append, hrun1, run_frames_cons, hconf,
      frames_confirmed_stuck h s post _ (by rw [hst1]) rfl hpost]

/-- Witness for the amended C1: hold duration 4, "A" held at times 1 and 2,
an empty (sub-threshold) frame at time 3, "A" again at times 4 and 5; the
single append happens at time 5, four time units after the first hold
began. -/
theorem C1_amended_witness :
    (run_frames 4 initState ((1, [("A", 1)]) :: [(2, [("A", 1)]), (3, []), (4, [("A", 1)])])).current_word
      = initState.current_word ∧
    (run_frames 4 initState (((1, [("A", 1)]) :: [(2, [("A", 1)]), (3, []), (4, [("A", 1)])])
        ++ [(5, ("A", 1) :: [])])).current_word
      = initState.current_word ++ "A" ∧
    (run_frames 4 initState (((1, [("A", 1)]) :: [(2, [("A", 1)]), (3, []), (4, [("A", 1)])])
        ++ (5, ("A", 1) :: []) :: [(6, [("A", 1)])])).current_word
      = initState.current_word ++ "A" :=
  C1_amended_gap_does_not_reset 4 1 5 1 1 initState "A"
    [(2, [("A", 1)]), (3, []), (4, [("A", 1)])] [] [(6, [("A", 1)])]
    (by decide) (by decide) (by decide) (by decide) (by decide) (by decide)

/-- Claim C4, counterexample: with two detections in one frame — "A" at
confidence 0.9 then "B" at confidence 0.85 — the frame loop feeds BOTH to
the handler, so the second (lower-confidence) detection overwrites the
candidate: the engine ends holding "B", not the top detection "A". -/
theorem C4_counterexample :
    (update_frame_boxes 4 initState [("A", 9 / 10), ("B", 85 / 100)] 7).last_detected_letter
      = some "B" ∧
    (update_frame_boxes 4 initState [("A", 9 / 10), ("B", 85 / 100)] 7).letter_hold_start
      = some 7 := by decide

/-- Claim C4 as amended: `update_frame` feeds every detection of the frame
into `handle_letter_detection`, in box order; with two detections of
different letters in one frame the debounce state ends holding the LAST
detection as candidate, with its timer started at this frame, regardless
of which detection has the higher confidence. -/
theorem C4_amended_every_box_drives_debounce (h : Int) (st : AppState)
    (a b : String) (ca cb : ℚ) (now : Int)
    (hne : b ≠ a) :
    (update_frame_boxes h st [(a, ca), (b, cb)] now).last_detected_letter = some b ∧
    (update_frame_boxes h st [(a, ca), (b, cb)] now).letter_hold_start = some now := by
  have hlast1 := handle_last h st a ca now
  have hne2 : some b ≠ (handle_letter_detection h st a ca now).last_detected_letter := by
    rw [hlast1]
    simp [hne]
  have hstep : update_frame_boxes h st [(a, ca), (b, cb)] now
      = handle_letter_detection h (handle_letter_detection h st a ca now) b cb now := rfl
  rw [hstep, handle_new h _ b cb now hne2]
  exact ⟨rfl, rfl⟩

/-- Witness for the amended C4: a frame carrying "A" then "B" leaves the
engine holding "B" with its timer at the frame's time. -/
theorem C4_amended_witness :
    (update_frame_boxes 4 initState [("A", 9 / 10), ("B", 85 / 100)] 7).last_detected_letter
      = some "B" ∧
    (update_frame_boxes 4 initState [("A", 9 / 10), ("B", 85 / 100)] 7).letter_hold_start
      = some 7 :=
  C4_amended_every_box_drives_debounce 4 initState "A" "B" (9 / 10) (85 / 100) 7 (by decide)

/-- Claim C3, counterexample: backspace on the word "AB" while the engine
holds candidate "B" with its timer running does NOT reset the debounce
state to Idle — the stored candidate and the hold timer survive the
backspace untouched. -/
theorem C3_counterexample :
    (backspace_word
        { current_word := "AB", last_detected_letter := some "B", letter_hold_start := some 5,
          word_history := [], logLines := [], status := "S" }).last_detected_letter
      = some "B" ∧
    (backspace_word
        { current_word := "AB", last_detected_letter := some "B", letter_hold_start := some 5,
          word_history := [], logLines := [], status := "S" }).letter_hold_start
      = some 5 := by decide

/-- Claim C3 as amended: on a non-empty buffer, backspace removes exactly
the last character and reports "Removed last letter", leaving everything
else — including the debounce state — unchanged (it does NOT reset the
engine to Idle); on an empty buffer it changes only the status, to the
"nothing to remove" report; appending one character (a space, via
`add_space`) and backspacing restores the buffer and debounce state
exactly. -/
theorem C3_amended_backspace_keeps_engine_state (st : AppState) :
    (st.current_word ≠ "" →
      backspace_word st =
        { st with
          current_word := String.mk st.current_word.data.dropLast
          status := "Removed last letter" }) ∧
    (st.current_word = "" →
      backspace_word st = { st with status := "No letter to remove" }) ∧
    (backspace_word (add_space st)).current_word = st.current_word ∧
    (backspace_word (add_space st)).last_detected_letter = st.last_detected_letter ∧
    (backspace_word (add_space st)).letter_hold_start = st.letter_hold_start := by
  have hsp : (st.current_word ++ " ") ≠ "" := by
    intro hcontra
    have := congrArg String.data hcontra
    simp [String.data_append] at this
  have hbs : backspace_word (add_space st) =
      { st with
        current_word := String.mk (st.current_word ++ " ").data.dropLast
        status := "Removed last letter" } := by
    rw [add_space, backspace_word, if_pos hsp]
  refine ⟨fun hne => by rw [backspace_word, if_pos hne], fun he => ?_, ?_, ?_, ?_⟩
  · rw [backspace_word, if_neg (by simp [he])]
  · rw [hbs]
    simp [String.data_append]
  · rw [hbs]
  · rw [hbs]

/-- Witness for the amended C3: backspace on "AB" with a live hold episode
gives "A" and keeps candidate "B" and timer 5; backspace on an empty word
only reports; space-then-backspace round-trips. -/
theorem C3_witness :
    backspace_word
        { current_word := "AB", last_detected_letter := some "B", letter_hold_start := some 5,
          word_history := [], logLines := [], status := "S" }
      = { current_word := "A", last_detected_letter := some "B", letter_hold_start := some 5,
          word_history := [], logLines := [], status := "Removed last letter" } ∧
    backspace_word initState = { initState with status := "No letter to remove" } ∧
    (backspace_word (add_space initState)).current_word = initState.current_word := by
  refine ⟨?_, ?_, ?_⟩
  · exact ((C3_amended_backspace_keeps_engine_state
      { current_word := "AB", last_detected_letter := some "B", letter_hold_start := some 5,
        word_history := [], logLines := [], status := "S" }).1 (by decide)).trans (by decide)
  · exact (C3_amended_backspace_keeps_engine_state initState).2.1 rfl
  · exact (C3_amended_backspace_keeps_engine_state initState).2.2.1

/-- Claim C5, counterexample: submitting the word "HI" when the log write
fails leaves the in-memory history MUTATED (the entry is appended) while
the log is untouched — the history append happens before the log write, so
the operation is not all-or-nothing and the claimed log-first order is
false. -/
theorem C5_counterexample :
    (submit_word "2025-01-01 00:00:00" false
        { current_word := "HI", last_detected_letter := none, letter_hold_start := none,
          word_history := [], logLines := [], status := "Ready" }).word_history
      = ["HI"] ∧
    (submit_word "2025-01-01 00:00:00" false
        { current_word := "HI", last_detected_letter := none, letter_hold_start := none,
          word_history := [], logLines := [], status := "Ready" }).logLines
      = [] := by decide

/-- Claim C5 as amended: `submit_word` appends to the in-memory history
FIRST and writes the durable log second; if the log write fails, the word
buffer, debounce state, log and status are unchanged but the history keeps
the freshly appended entry, so the operation is not all-or-nothing from
the caller's point of view and a retry duplicates the history entry. -/
theorem C5_amended_history_first_log_second (st : AppState) (ts : String)
    (hne : st.current_word ≠ "") :
    submit_word ts false st = { st with word_history := st.word_history ++ [st.current_word] } := by
  rw [submit_word, if_pos hne]
  rfl

/-- Witness for the amended C5: a failed submit of "HI" keeps the buffer
and log, and appends "HI" to the history. -/
theorem C5_witness :
    submit_word "2025-01-01 00:00:00" false
        { current_word := "HI", last_detected_letter := none, letter_hold_start := none,
          word_history := ["OLD"], logLines := ["x\n"], status := "Ready" }
      = { current_word := "HI", last_detected_letter := none, letter_hold_start := none,
          word_history := ["OLD", "HI"], logLines := ["x\n"], status := "Ready" } :=
  (C5_amended_history_first_log_second
    { current_word := "HI", last_detected_letter := none, letter_hold_start := none,
      word_history := ["OLD"], logLines := ["x\n"], status := "Ready" }
    "2025-01-01 00:00:00" (by decide)).trans (by decide)

/-- Claim C6: on a non-empty buffer, a successful submit appends exactly
one history entry holding the buffer text (most-recent-last), writes
exactly one log line of the form "timestamp: word\n", and empties the
buffer via `clear_word` (which also resets the debounce state and leaves
the status at "Word cleared"); on an empty buffer only the status changes,
to the "nothing to submit" report. -/
theorem C6_submit_appends_and_clears (st : AppState) (ts : String) :
    (st.current_word ≠ "" →
      submit_word ts true st =
        { st with
          current_word := ""
          last_detected_letter := none
          letter_hold_start := none
          word_history := st.word_history ++ [st.current_word]
          logLines := st.logLines ++ [ts ++ ": " ++ st.current_word ++ "\n"]
          status := "Word cleared" }) ∧
    (st.current_word = "" →
      submit_word ts true st = { st with status := "No word to submit" }) := by
  constructor
  · intro hne
    rw [submit_word, if_pos hne]
    rfl
  · intro he
    rw [submit_word, if_neg (by simp [he])]

/-- Witness for C6: submitting "HI" appends the history entry and the log
line "2025-01-01 00:00:00: HI\n" and clears the buffer; submitting an
empty buffer only sets the status. -/
theorem C6_witness :
    submit_word "2025-01-01 00:00:00" true
        { current_word := "HI", last_detected_letter := some "I", letter_hold_start := none,
          word_history := ["OLD"], logLines := ["x\n"], status := "S" }
      = { current_word := "", last_detected_letter := none, letter_hold_start := none,
          word_history := ["OLD", "HI"],
          logLines := ["x\n", "2025-01-01 00:00:00: HI\n"], status := "Word cleared" } ∧
    submit_word "T" true initState = { initState with status := "No word to submit" } :=
  ⟨((C6_submit_appends_and_clears
      { current_word := "HI", last_detected_letter := some "I", letter_hold_start := none,
        word_history := ["OLD"], logLines := ["x\n"], status := "S" }
      "2025-01-01 00:00:00").1 (by decide)).trans (by decide),
   (C6_submit_appends_and_clears initState "T").2 rfl⟩
